import Mathlib

/-!
Shallow embedding of the privx-cli command layer (Go): the trusted-clients
command group (cmd/trustedclients.go) and the roles command group.  Remote SDK
calls (userstore / authorizer / rolestore APIs) are modelled by records of
response functions supplied as a parameter; each embedded command returns the
list of remote calls it performed, in order, together with its Go return value
(`error` becomes `Except Err`, with the value printed to stdout on success).
-/

namespace PrivxCli

/-- Opaque error payload returned by the remote service or local failures. -/
abbrev Err := String

/-- Go `strings.ToUpper` on a single ASCII character (all client-type tokens
the CLI compares are ASCII). -/
def goUpperChar (c : Char) : Char :=
  if 'a' ≤ c ∧ c ≤ 'z' then Char.ofNat (c.toNat - 32) else c

/-- Go `strings.ToUpper`, restricted to ASCII input as used on the client-type
tokens. -/
def goToUpper (s : String) : String :=
  String.mk (s.data.map goUpperChar)

/-- Worker for `goSplit`: scans the character list, cutting at the separator. -/
def goSplitAux (sep : Char) : List Char → List Char → List String
  | [], acc => [String.mk acc.reverse]
  | c :: rest, acc =>
      if c = sep then String.mk acc.reverse :: goSplitAux sep rest []
      else goSplitAux sep rest (c :: acc)

/-- Go `strings.Split` with a non-empty single-character separator: yields the
substrings between separators; on the empty string it yields `[""]`. -/
def goSplit (s : String) (sep : Char) : List String :=
  goSplitAux sep s.data []

/-- `userstore.TrustedClient`, restricted to the fields the CLI logic reads:
`type_` embeds the Go field `Type` (a `ClientType`, i.e. a string). -/
structure TrustedClient where
  type_ : String
  id : String
  name : String
deriving DecidableEq

/-- `rolestore.User`, opaque member record. -/
structure User where
  id : String
deriving DecidableEq

/-- A CA certificate as returned by the authorizer API, opaque payload. -/
structure CACertificate where
  pem : String
deriving DecidableEq

/-- Response of the download-handle endpoints: carries the `SessionID` the
second download step must present. -/
structure DownloadHandle where
  sessionID : String
deriving DecidableEq

/-- One remote SDK operation invocation, with the arguments the CLI passed. -/
inductive RemoteCall where
  | trustedClients
  | extenderCACertificates (accessGroupID : String)
  | webProxyCACertificates (accessGroupID : String)
  | extenderCACertificate (trustedClientID : String)
  | webProxyCACertificate (trustedClientID : String)
  | downloadExtenderCertificateCRL (fileName trustedClientID : String)
  | downloadWebProxyCertificateCRL (fileName trustedClientID : String)
  | extenderConfigDownloadHandle (trustedClientID : String)
  | downloadExtenderConfig (trustedClientID sessionID fileName : String)
  | webProxySessionDownloadHandle (trustedClientID : String)
  | downloadWebProxyConfig (trustedClientID sessionID fileName : String)
  | carrierConfigDownloadHandle (trustedClientID : String)
  | downloadCarrierConfig (trustedClientID sessionID fileName : String)
  | deleteRole (roleID : String)
  | getRoleMembers (roleID : String)
deriving DecidableEq

/-- Responses of the userstore API (external collaborator). -/
structure UserstoreApi where
  trustedClients : Except Err (List TrustedClient)

/-- Responses of the authorizer API (external collaborator); each field maps
the arguments of the corresponding SDK call to its outcome. -/
structure AuthorizerApi where
  extenderCACertificates : String → Except Err (List CACertificate)
  webProxyCACertificates : String → Except Err (List CACertificate)
  extenderCACertificate : String → Except Err CACertificate
  webProxyCACertificate : String → Except Err CACertificate
  downloadExtenderCertificateCRL : String → String → Except Err Unit
  downloadWebProxyCertificateCRL : String → String → Except Err Unit
  extenderConfigDownloadHandle : String → Except Err DownloadHandle
  downloadExtenderConfig : String → String → String → Except Err Unit
  webProxySessionDownloadHandle : String → Except Err DownloadHandle
  downloadWebProxyConfig : String → String → String → Except Err Unit
  carrierConfigDownloadHandle : String → Except Err DownloadHandle
  downloadCarrierConfig : String → String → String → Except Err Unit

/-- Responses of the rolestore API (external collaborator), restricted to the
operations the batch commands use. -/
structure RolestoreApi where
  deleteRole : String → Except Err Unit
  getRoleMembers : String → Except Err (List User)

/-- `trustedClientOptions` (trustedclients.go lines 18-24); the defaults are
the flag defaults (empty string). -/
structure trustedClientOptions where
  accessGroupID : String := ""
  extenderID : String := ""
  fileName : String := ""
  clientType : String := ""
  trustedClientID : String := ""
deriving DecidableEq

/-- `normalizeClientType` (trustedclients.go lines 26-28): upper-case the
client-type token. -/
def trustedClientOptions.normalizeClientType (m : trustedClientOptions) : String :=
  goToUpper m.clientType

/-- `roleOptions` (roles file): defaults are the flag defaults. -/
structure roleOptions where
  roleID : String := ""
  roleName : String := ""
  tokenCode : String := ""
  ttl : Int := 50
deriving DecidableEq

/-- `trustedClientListHelper` (trustedclients.go lines 103-113): the Go loop
appending every client whose `Type` equals `clientType`. -/
def trustedClientListHelper (trustedClients : List TrustedClient)
    (clientType : String) : List TrustedClient :=
  trustedClients.foldl
    (fun clients client =>
      if client.type_ == clientType then clients ++ [client] else clients)
    []

/-- `trustedClientList` (trustedclients.go lines 80-101): fetch all trusted
clients, then dispatch on the type token to select the filter category. -/
def trustedClientList (api : UserstoreApi) (options : trustedClientOptions) :
    List RemoteCall × Except Err (List TrustedClient) :=
  match api.trustedClients with
  | Except.error e => ([RemoteCall.trustedClients], Except.error e)
  | Except.ok res =>
      match options.clientType with
      | "extender" =>
          ([RemoteCall.trustedClients],
           Except.ok (trustedClientListHelper res options.normalizeClientType))
      | "webproxy" =>
          ([RemoteCall.trustedClients],
           Except.ok (trustedClientListHelper res "ICAP"))
      | "carrier" =>
          ([RemoteCall.trustedClients],
           Except.ok (trustedClientListHelper res options.normalizeClientType))
      | other =>
          ([RemoteCall.trustedClients],
           Except.error ("client type does not exist: " ++ other))

/-- Options record built by the `list` flag wiring (trustedclients.go lines
73-75): `--type` is bound to `clientType`. -/
def trustedClientListOptions (typeToken : String) : trustedClientOptions :=
  { clientType := typeToken }

/-- `extenderCAList` (trustedclients.go lines 187-196). -/
def extenderCAList (api : AuthorizerApi) (options : trustedClientOptions) :
    List RemoteCall × Except Err (List CACertificate) :=
  match api.extenderCACertificates options.accessGroupID with
  | Except.error e =>
      ([RemoteCall.extenderCACertificates options.accessGroupID], Except.error e)
  | Except.ok certificates =>
      ([RemoteCall.extenderCACertificates options.accessGroupID],
       Except.ok certificates)

/-- `webproxyCAList` (trustedclients.go lines 198-207). -/
def webproxyCAList (api : AuthorizerApi) (options : trustedClientOptions) :
    List RemoteCall × Except Err (List CACertificate) :=
  match api.webProxyCACertificates options.accessGroupID with
  | Except.error e =>
      ([RemoteCall.webProxyCACertificates options.accessGroupID], Except.error e)
  | Except.ok certificates =>
      ([RemoteCall.webProxyCACertificates options.accessGroupID],
       Except.ok certificates)

/-- The `RunE` closure of `caListCmd` (trustedclients.go lines 165-176): the
switch invokes the per-type helper but discards its returned error and falls
through to `return nil`; only the default branch returns an error. -/
def caListRunE (api : AuthorizerApi) (options : trustedClientOptions) :
    List RemoteCall × Except Err Unit :=
  match options.clientType with
  | "extender" => ((extenderCAList api options).1, Except.ok ())
  | "webproxy" => ((webproxyCAList api options).1, Except.ok ())
  | other => ([], Except.error ("client type does not exist: " ++ other))

/-- Options record built by the `list-ca` flag wiring (trustedclients.go lines
179-182): `--type` to `clientType`, `--group-id` to `accessGroupID`. -/
def caListOptions (typeToken groupID : String) : trustedClientOptions :=
  { clientType := typeToken, accessGroupID := groupID }

/-- `extenderCAShow` (trustedclients.go lines 245-254): reads
`options.trustedClientID`, not `options.extenderID`. -/
def extenderCAShow (api : AuthorizerApi) (options : trustedClientOptions) :
    List RemoteCall × Except Err CACertificate :=
  match api.extenderCACertificate options.trustedClientID with
  | Except.error e =>
      ([RemoteCall.extenderCACertificate options.trustedClientID], Except.error e)
  | Except.ok certificate =>
      ([RemoteCall.extenderCACertificate options.trustedClientID],
       Except.ok certificate)

/-- `webproxyCAShow` (trustedclients.go lines 256-265). -/
def webproxyCAShow (api : AuthorizerApi) (options : trustedClientOptions) :
    List RemoteCall × Except Err CACertificate :=
  match api.webProxyCACertificate options.trustedClientID with
  | Except.error e =>
      ([RemoteCall.webProxyCACertificate options.trustedClientID], Except.error e)
  | Except.ok certificate =>
      ([RemoteCall.webProxyCACertificate options.trustedClientID],
       Except.ok certificate)

/-- The `RunE` closure of `caShowCmd` (trustedclients.go lines 222-233): same
error-discarding switch shape as `caListRunE`. -/
def caShowRunE (api : AuthorizerApi) (options : trustedClientOptions) :
    List RemoteCall × Except Err Unit :=
  match options.clientType with
  | "extender" => ((extenderCAShow api options).1, Except.ok ())
  | "webproxy" => ((webproxyCAShow api options).1, Except.ok ())
  | other => ([], Except.error ("client type does not exist: " ++ other))

/-- Options record built by the `show-ca` flag wiring (trustedclients.go lines
236-240): `--client-id` is bound to the `extenderID` field (not
`trustedClientID`), `--type` to `clientType`. -/
def caShowOptions (clientID typeToken : String) : trustedClientOptions :=
  { extenderID := clientID, clientType := typeToken }

/-- `extenderRevocationList` (trustedclients.go lines 305-314): passes
`options.fileName` and `options.trustedClientID`. -/
def extenderRevocationList (api : AuthorizerApi) (options : trustedClientOptions) :
    List RemoteCall × Except Err Unit :=
  match api.downloadExtenderCertificateCRL options.fileName options.trustedClientID with
  | Except.error e =>
      ([RemoteCall.downloadExtenderCertificateCRL options.fileName options.trustedClientID],
       Except.error e)
  | Except.ok _ =>
      ([RemoteCall.downloadExtenderCertificateCRL options.fileName options.trustedClientID],
       Except.ok ())

/-- `webproxyRevocationList` (trustedclients.go lines 316-325). -/
def webproxyRevocationList (api : AuthorizerApi) (options : trustedClientOptions) :
    List RemoteCall × Except Err Unit :=
  match api.downloadWebProxyCertificateCRL options.fileName options.trustedClientID with
  | Except.error e =>
      ([RemoteCall.downloadWebProxyCertificateCRL options.fileName options.trustedClientID],
       Except.error e)
  | Except.ok _ =>
      ([RemoteCall.downloadWebProxyCertificateCRL options.fileName options.trustedClientID],
       Except.ok ())

/-- The `RunE` closure of `revocationListCmd` (trustedclients.go lines
280-291): same error-discarding switch shape. -/
def revocationListRunE (api : AuthorizerApi) (options : trustedClientOptions) :
    List RemoteCall × Except Err Unit :=
  match options.clientType with
  | "extender" => ((extenderRevocationList api options).1, Except.ok ())
  | "webproxy" => ((webproxyRevocationList api options).1, Except.ok ())
  | other => ([], Except.error ("client type does not exist: " ++ other))

/-- Options record built by the `show-crl` flag wiring (trustedclients.go lines
294-300): `--client-id` is bound to `extenderID` (not `trustedClientID`),
`--name` to `fileName`, `--type` to `clientType`. -/
def revocationListOptions (clientID fileName typeToken : String) :
    trustedClientOptions :=
  { extenderID := clientID, fileName := fileName, clientType := typeToken }

/-- `downloadExtenderPreConf` (trustedclients.go lines 370-384): get the
download handle, then download with the handle's session ID. -/
def downloadExtenderPreConf (api : AuthorizerApi) (options : trustedClientOptions) :
    List RemoteCall × Except Err Unit :=
  match api.extenderConfigDownloadHandle options.trustedClientID with
  | Except.error e =>
      ([RemoteCall.extenderConfigDownloadHandle options.trustedClientID], Except.error e)
  | Except.ok handler =>
      match api.downloadExtenderConfig options.trustedClientID handler.sessionID
          options.fileName with
      | Except.error e =>
          ([RemoteCall.extenderConfigDownloadHandle options.trustedClientID,
            RemoteCall.downloadExtenderConfig options.trustedClientID handler.sessionID
              options.fileName],
           Except.error e)
      | Except.ok _ =>
          ([RemoteCall.extenderConfigDownloadHandle options.trustedClientID,
            RemoteCall.downloadExtenderConfig options.trustedClientID handler.sessionID
              options.fileName],
           Except.ok ())

/-- `downloadWebProxyPreConf` (trustedclients.go lines 386-400). -/
def downloadWebProxyPreConf (api : AuthorizerApi) (options : trustedClientOptions) :
    List RemoteCall × Except Err Unit :=
  match api.webProxySessionDownloadHandle options.trustedClientID with
  | Except.error e =>
      ([RemoteCall.webProxySessionDownloadHandle options.trustedClientID], Except.error e)
  | Except.ok handler =>
      match api.downloadWebProxyConfig options.trustedClientID handler.sessionID
          options.fileName with
      | Except.error e =>
          ([RemoteCall.webProxySessionDownloadHandle options.trustedClientID,
            RemoteCall.downloadWebProxyConfig options.trustedClientID handler.sessionID
              options.fileName],
           Except.error e)
      | Except.ok _ =>
          ([RemoteCall.webProxySessionDownloadHandle options.trustedClientID,
            RemoteCall.downloadWebProxyConfig options.trustedClientID handler.sessionID
              options.fileName],
           Except.ok ())

/-- `downloadCarrierPreConf` (trustedclients.go lines 402-416). -/
def downloadCarrierPreConf (api : AuthorizerApi) (options : trustedClientOptions) :
    List RemoteCall × Except Err Unit :=
  match api.carrierConfigDownloadHandle options.trustedClientID with
  | Except.error e =>
      ([RemoteCall.carrierConfigDownloadHandle options.trustedClientID], Except.error e)
  | Except.ok handler =>
      match api.downloadCarrierConfig options.trustedClientID handler.sessionID
          options.fileName with
      | Except.error e =>
          ([RemoteCall.carrierConfigDownloadHandle options.trustedClientID,
            RemoteCall.downloadCarrierConfig options.trustedClientID handler.sessionID
              options.fileName],
           Except.error e)
      | Except.ok _ =>
          ([RemoteCall.carrierConfigDownloadHandle options.trustedClientID,
            RemoteCall.downloadCarrierConfig options.trustedClientID handler.sessionID
              options.fileName],
           Except.ok ())

/-- `preconfigurationDownloadSwitch` (trustedclients.go lines 356-369): same
error-discarding switch shape, with a carrier branch. -/
def preconfigurationDownloadSwitch (api : AuthorizerApi)
    (options : trustedClientOptions) : List RemoteCall × Except Err Unit :=
  match options.clientType with
  | "extender" => ((downloadExtenderPreConf api options).1, Except.ok ())
  | "webproxy" => ((downloadWebProxyPreConf api options).1, Except.ok ())
  | "carrier" => ((downloadCarrierPreConf api options).1, Except.ok ())
  | other => ([], Except.error ("client type does not exist: " ++ other))

/-- Options record built by the `pre-config` flag wiring (trustedclients.go
lines 345-351): `--client-id` to `trustedClientID`, `--type` to `clientType`,
`--name` to `fileName`. -/
def preConfigOptions (clientID typeToken fileName : String) :
    trustedClientOptions :=
  { trustedClientID := clientID, clientType := typeToken, fileName := fileName }

/-- Loop body of `roleDelete` over the comma-split ID list: delete each role
left to right, echoing each deleted ID, stopping at the first error.  Returns
the calls performed, the IDs echoed, and the Go return value. -/
def roleDeleteLoop (api : RolestoreApi) :
    List String → List RemoteCall × List String × Except Err Unit
  | [] => ([], [], Except.ok ())
  | id :: rest =>
      match api.deleteRole id with
      | Except.error e => ([RemoteCall.deleteRole id], [], Except.error e)
      | Except.ok _ =>
          let r := roleDeleteLoop api rest
          (RemoteCall.deleteRole id :: r.1, id :: r.2.1, r.2.2)

/-- `roleDelete` (roles file lines 164-177): split the `--id` value on commas
and delete each role in order. -/
def roleDelete (api : RolestoreApi) (options : roleOptions) :
    List RemoteCall × List String × Except Err Unit :=
  roleDeleteLoop api (goSplit options.roleID ',')

/-- Loop body of `roleMemberList`: `members` is the Go accumulator appended to
on each success; the first error is returned, discarding the accumulator. -/
def roleMemberListLoop (api : RolestoreApi) (members : List User) :
    List String → List RemoteCall × Except Err (List User)
  | [] => ([], Except.ok members)
  | role :: rest =>
      match api.getRoleMembers role with
      | Except.error e => ([RemoteCall.getRoleMembers role], Except.error e)
      | Except.ok member =>
          let r := roleMemberListLoop api (members ++ member) rest
          (RemoteCall.getRoleMembers role :: r.1, r.2)

/-- `roleMemberList` (roles file lines 247-260): split the `--id` value on
commas, collect each role's members into one flat list, print it at the end. -/
def roleMemberList (api : RolestoreApi) (options : roleOptions) :
    List RemoteCall × Except Err (List User) :=
  roleMemberListLoop api [] (goSplit options.roleID ',')

/-- The Go append loop over a client list computes `List.filter`, for any
accumulator. -/
theorem foldl_append_eq_filter (p : TrustedClient → Bool)
    (ts acc : List TrustedClient) :
    ts.foldl (fun clients client => if p client then clients ++ [client] else clients) acc
      = acc ++ ts.filter p := by
  induction ts generalizing acc with
  | nil => simp
  | cons head tail ih =>
      cases hp : p head <;> simp [List.foldl_cons, hp, ih, List.filter_cons]

/-- `trustedClientListHelper` is `List.filter` on the `Type` field. -/
theorem trustedClientListHelper_eq_filter (ts : List TrustedClient) (c : String) :
    trustedClientListHelper ts c = ts.filter (fun client => client.type_ == c) := by
  unfold trustedClientListHelper
  rw [foldl_append_eq_filter]
  simp

/-- C4: the trusted-client filter returns exactly the subsequence of `L` whose
elements have `Type` equal to the requested category, preserving the original
relative order, and returns the empty list (not an error) when no element
matches. -/
theorem trustedClientListHelper_filter_spec (L : List TrustedClient) (c : String) :
    trustedClientListHelper L c = L.filter (fun client => client.type_ == c)
    ∧ (trustedClientListHelper L c).Sublist L
    ∧ (∀ x, x ∈ trustedClientListHelper L c ↔ x ∈ L ∧ x.type_ = c)
    ∧ ((∀ x ∈ L, x.type_ ≠ c) → trustedClientListHelper L c = []) := by
  refine ⟨trustedClientListHelper_eq_filter L c, ?_, ?_, ?_⟩
  · rw [trustedClientListHelper_eq_filter]
    exact List.filter_sublist L
  · intro x
    rw [trustedClientListHelper_eq_filter, List.mem_filter]
    simp
  · intro h
    rw [trustedClientListHelper_eq_filter]
    simp only [List.filter_eq_nil_iff]
    intro a ha
    simpa using h a ha

/-- Witness for C4: a list holding only an ICAP client filters to the empty
list under the category EXTENDER. -/
theorem trustedClientListHelper_filter_spec_witness :
    trustedClientListHelper [TrustedClient.mk "ICAP" "c1" "proxy1"] "EXTENDER" = [] :=
  (trustedClientListHelper_filter_spec [TrustedClient.mk "ICAP" "c1" "proxy1"]
    "EXTENDER").2.2.2 (by decide)

/-- C9: the trusted-client filter is idempotent. -/
theorem trustedClientListHelper_idempotent (L : List TrustedClient) (c : String) :
    trustedClientListHelper (trustedClientListHelper L c) c
      = trustedClientListHelper L c := by
  simp [trustedClientListHelper_eq_filter, List.filter_filter]

/-- `extenderCAShow` always performs exactly the one remote call, with the
`trustedClientID` field as argument. -/
theorem extenderCAShow_calls (api : AuthorizerApi) (options : trustedClientOptions) :
    (extenderCAShow api options).1
      = [RemoteCall.extenderCACertificate options.trustedClientID] := by
  unfold extenderCAShow
  cases api.extenderCACertificate options.trustedClientID <;> rfl

/-- `webproxyCAShow` always performs exactly the one remote call. -/
theorem webproxyCAShow_calls (api : AuthorizerApi) (options : trustedClientOptions) :
    (webproxyCAShow api options).1
      = [RemoteCall.webProxyCACertificate options.trustedClientID] := by
  unfold webproxyCAShow
  cases api.webProxyCACertificate options.trustedClientID <;> rfl

/-- `extenderRevocationList` always performs exactly the one remote call. -/
theorem extenderRevocationList_calls (api : AuthorizerApi)
    (options : trustedClientOptions) :
    (extenderRevocationList api options).1
      = [RemoteCall.downloadExtenderCertificateCRL options.fileName
          options.trustedClientID] := by
  unfold extenderRevocationList
  cases api.downloadExtenderCertificateCRL options.fileName options.trustedClientID <;> rfl

/-- `webproxyRevocationList` always performs exactly the one remote call. -/
theorem webproxyRevocationList_calls (api : AuthorizerApi)
    (options : trustedClientOptions) :
    (webproxyRevocationList api options).1
      = [RemoteCall.downloadWebProxyCertificateCRL options.fileName
          options.trustedClientID] := by
  unfold webproxyRevocationList
  cases api.downloadWebProxyCertificateCRL options.fileName options.trustedClientID <;> rfl

/-- C3: for show-ca and show-crl with types extender and webproxy, the client
identifier reaching the remote operation is always the empty string, whatever
`--client-id` held: the flag fills `extenderID` while the handlers read
`trustedClientID`, which stays at its default. -/
theorem clientID_flag_not_forwarded (api : AuthorizerApi)
    (clientID fileName : String) :
    (caShowRunE api (caShowOptions clientID "extender")).1
        = [RemoteCall.extenderCACertificate ""]
    ∧ (caShowRunE api (caShowOptions clientID "webproxy")).1
        = [RemoteCall.webProxyCACertificate ""]
    ∧ (revocationListRunE api (revocationListOptions clientID fileName "extender")).1
        = [RemoteCall.downloadExtenderCertificateCRL fileName ""]
    ∧ (revocationListRunE api (revocationListOptions clientID fileName "webproxy")).1
        = [RemoteCall.downloadWebProxyCertificateCRL fileName ""]
    ∧ (caShowOptions clientID "extender").extenderID = clientID
    ∧ (caShowOptions clientID "extender").trustedClientID = "" := by
  refine ⟨?_, ?_, ?_, ?_, rfl, rfl⟩
  · show (extenderCAShow api (caShowOptions clientID "extender")).1 = _
    rw [extenderCAShow_calls]
    rfl
  · show (webproxyCAShow api (caShowOptions clientID "webproxy")).1 = _
    rw [webproxyCAShow_calls]
    rfl
  · show (extenderRevocationList api (revocationListOptions clientID fileName "extender")).1 = _
    rw [extenderRevocationList_calls]
    rfl
  · show (webproxyRevocationList api (revocationListOptions clientID fileName "webproxy")).1 = _
    rw [webproxyRevocationList_calls]
    rfl

/-- C10: splitting on commas never yields an empty token list — the empty
string splits to `[""]` — so the batch delete and members commands on an empty
`--id` value issue exactly one remote call with the empty role identifier. -/
theorem emptyID_batch_single_call (dapi mapi : RolestoreApi) :
    goSplit "" ',' = [""]
    ∧ (roleDelete dapi { roleID := "" }).1 = [RemoteCall.deleteRole ""]
    ∧ (roleMemberList mapi { roleID := "" }).1 = [RemoteCall.getRoleMembers ""] := by
  refine ⟨rfl, ?_, ?_⟩
  · show (roleDeleteLoop dapi (goSplit "" ',')).1 = _
    have hs : goSplit "" ',' = [""] := rfl
    rw [hs]
    unfold roleDeleteLoop
    cases dapi.deleteRole "" <;> rfl
  · show (roleMemberListLoop mapi [] (goSplit "" ',')).1 = _
    have hs : goSplit "" ',' = [""] := rfl
    rw [hs]
    unfold roleMemberListLoop
    cases mapi.getRoleMembers "" <;> rfl

/-- An authorizer API whose every operation fails with the same remote error. -/
def failingAuthorizerApi : AuthorizerApi :=
  { extenderCACertificates := fun _ => Except.error "remote failure"
  , webProxyCACertificates := fun _ => Except.error "remote failure"
  , extenderCACertificate := fun _ => Except.error "remote failure"
  , webProxyCACertificate := fun _ => Except.error "remote failure"
  , downloadExtenderCertificateCRL := fun _ _ => Except.error "remote failure"
  , downloadWebProxyCertificateCRL := fun _ _ => Except.error "remote failure"
  , extenderConfigDownloadHandle := fun _ => Except.error "remote failure"
  , downloadExtenderConfig := fun _ _ _ => Except.error "remote failure"
  , webProxySessionDownloadHandle := fun _ => Except.error "remote failure"
  , downloadWebProxyConfig := fun _ _ _ => Except.error "remote failure"
  , carrierConfigDownloadHandle := fun _ => Except.error "remote failure"
  , downloadCarrierConfig := fun _ _ _ => Except.error "remote failure" }

/-- A userstore API that reports no trusted clients. -/
def emptyUserstoreApi : UserstoreApi :=
  { trustedClients := Except.ok [] }

/-- C1: with every remote operation failing, each delegated helper of list-ca,
show-ca, show-crl and pre-config returns the remote error, yet every
subcommand RunE discards it and reports success: the error never reaches the
caller. -/
theorem runE_discards_remote_errors :
    (extenderCAList failingAuthorizerApi (caListOptions "extender" "")).2
        = Except.error "remote failure"
    ∧ (caListRunE failingAuthorizerApi (caListOptions "extender" "")).2
        = Except.ok ()
    ∧ (extenderCAShow failingAuthorizerApi (caShowOptions "id1" "extender")).2
        = Except.error "remote failure"
    ∧ (caShowRunE failingAuthorizerApi (caShowOptions "id1" "extender")).2
        = Except.ok ()
    ∧ (extenderRevocationList failingAuthorizerApi
          (revocationListOptions "id1" "crl.pem" "extender")).2
        = Except.error "remote failure"
    ∧ (revocationListRunE failingAuthorizerApi
          (revocationListOptions "id1" "crl.pem" "extender")).2
        = Except.ok ()
    ∧ (downloadExtenderPreConf failingAuthorizerApi
          (preConfigOptions "id1" "extender" "out.conf")).2
        = Except.error "remote failure"
    ∧ (preconfigurationDownloadSwitch failingAuthorizerApi
          (preConfigOptions "id1" "extender" "out.conf")).2
        = Except.ok () :=
  ⟨rfl, rfl, rfl, rfl, rfl, rfl, rfl, rfl⟩

/-- C2 counterexample: `trusted-clients list` with the unrecognized token
"vault" still performs the remote TrustedClients call before failing on the
token, so a remote operation is invoked on an unrecognized token. -/
theorem trustedClientList_remote_call_on_bad_token :
    (trustedClientList emptyUserstoreApi (trustedClientListOptions "vault")).1
        = [RemoteCall.trustedClients]
    ∧ (trustedClientList emptyUserstoreApi (trustedClientListOptions "vault")).2
        = Except.error ("client type does not exist: " ++ "vault") :=
  ⟨rfl, rfl⟩

/-- The list-ca switch on an unrecognized token fails without remote calls. -/
theorem caListRunE_default (api : AuthorizerApi) (options : trustedClientOptions)
    (h1 : options.clientType ≠ "extender") (h2 : options.clientType ≠ "webproxy") :
    caListRunE api options
      = ([], Except.error ("client type does not exist: " ++ options.clientType)) := by
  unfold caListRunE
  split <;> simp_all

/-- The show-ca switch on an unrecognized token fails without remote calls. -/
theorem caShowRunE_default (api : AuthorizerApi) (options : trustedClientOptions)
    (h1 : options.clientType ≠ "extender") (h2 : options.clientType ≠ "webproxy") :
    caShowRunE api options
      = ([], Except.error ("client type does not exist: " ++ options.clientType)) := by
  unfold caShowRunE
  split <;> simp_all

/-- The show-crl switch on an unrecognized token fails without remote calls. -/
theorem revocationListRunE_default (api : AuthorizerApi)
    (options : trustedClientOptions)
    (h1 : options.clientType ≠ "extender") (h2 : options.clientType ≠ "webproxy") :
    revocationListRunE api options
      = ([], Except.error ("client type does not exist: " ++ options.clientType)) := by
  unfold revocationListRunE
  split <;> simp_all

/-- The pre-config switch on an unrecognized token fails without remote
calls. -/
theorem preconfigurationDownloadSwitch_default (api : AuthorizerApi)
    (options : trustedClientOptions)
    (h1 : options.clientType ≠ "extender") (h2 : options.clientType ≠ "webproxy")
    (h3 : options.clientType ≠ "carrier") :
    preconfigurationDownloadSwitch api options
      = ([], Except.error ("client type does not exist: " ++ options.clientType)) := by
  unfold preconfigurationDownloadSwitch
  split <;> simp_all

/-- `trustedClientList` performs the one TrustedClients remote call whatever
the token and outcome. -/
theorem trustedClientList_calls (api : UserstoreApi)
    (options : trustedClientOptions) :
    (trustedClientList api options).1 = [RemoteCall.trustedClients] := by
  unfold trustedClientList
  split
  · rfl
  · split <;> rfl

/-- On a successful fetch, `trustedClientList` with an unrecognized token
returns the dispatch error. -/
theorem trustedClientList_default (api : UserstoreApi) (L : List TrustedClient)
    (hu : api.trustedClients = Except.ok L) (options : trustedClientOptions)
    (h1 : options.clientType ≠ "extender") (h2 : options.clientType ≠ "webproxy")
    (h3 : options.clientType ≠ "carrier") :
    (trustedClientList api options).2
      = Except.error ("client type does not exist: " ++ options.clientType) := by
  unfold trustedClientList
  rw [hu]
  split <;> simp_all

/-- C2 (amended): each command rejects tokens outside its own recognized set —
extender/webproxy for list-ca, show-ca and show-crl (so carrier is rejected
there too), extender/webproxy/carrier for pre-config and list.  For list-ca,
show-ca, show-crl and pre-config the descriptive dispatch error comes before
any remote call; for `trusted-clients list`, however, the TrustedClients fetch
is performed first, and an unrecognized token then fails with the same
dispatch error after exactly that one remote call. -/
theorem badToken_dispatch_behavior (token : String)
    (h1 : token ≠ "extender") (h2 : token ≠ "webproxy")
    (api : AuthorizerApi) (uapi : UserstoreApi) (L : List TrustedClient)
    (hu : uapi.trustedClients = Except.ok L) (clientID fileName groupID : String) :
    caListRunE api (caListOptions token groupID)
        = ([], Except.error ("client type does not exist: " ++ token))
    ∧ caShowRunE api (caShowOptions clientID token)
        = ([], Except.error ("client type does not exist: " ++ token))
    ∧ revocationListRunE api (revocationListOptions clientID fileName token)
        = ([], Except.error ("client type does not exist: " ++ token))
    ∧ (token ≠ "carrier" →
        preconfigurationDownloadSwitch api (preConfigOptions clientID token fileName)
          = ([], Except.error ("client type does not exist: " ++ token)))
    ∧ (token ≠ "carrier" →
        trustedClientList uapi (trustedClientListOptions token)
          = ([RemoteCall.trustedClients],
             Except.error ("client type does not exist: " ++ token))) := by
  refine ⟨caListRunE_default api _ h1 h2, caShowRunE_default api _ h1 h2,
    revocationListRunE_default api _ h1 h2, ?_, ?_⟩
  · intro h3
    exact preconfigurationDownloadSwitch_default api _ h1 h2 h3
  · intro h3
    have ht := trustedClientList_calls uapi (trustedClientListOptions token)
    have hr := trustedClientList_default uapi L hu (trustedClientListOptions token) h1 h2 h3
    exact Prod.ext ht hr

/-- Witness for C2 (amended): "carrier" is rejected by list-ca (it is outside
that command's recognized set) with no remote call, and the wholly
unrecognized token "gateway" makes `list` fail only after the one
TrustedClients call. -/
theorem badToken_dispatch_behavior_witness :
    caListRunE failingAuthorizerApi (caListOptions "carrier" "")
        = ([], Except.error ("client type does not exist: " ++ "carrier"))
    ∧ caShowRunE failingAuthorizerApi (caShowOptions "id1" "carrier")
        = ([], Except.error ("client type does not exist: " ++ "carrier"))
    ∧ revocationListRunE failingAuthorizerApi
          (revocationListOptions "id1" "crl.pem" "carrier")
        = ([], Except.error ("client type does not exist: " ++ "carrier"))
    ∧ trustedClientList emptyUserstoreApi (trustedClientListOptions "gateway")
        = ([RemoteCall.trustedClients],
           Except.error ("client type does not exist: " ++ "gateway")) := by
  have hc := badToken_dispatch_behavior "carrier" (by decide) (by decide)
    failingAuthorizerApi emptyUserstoreApi [] rfl "id1" "crl.pem" ""
  have hg := badToken_dispatch_behavior "gateway" (by decide) (by decide)
    failingAuthorizerApi emptyUserstoreApi [] rfl "id1" "crl.pem" ""
  exact ⟨hc.1, hc.2.1, hc.2.2.1, hg.2.2.2.2 (by decide)⟩

/-- C5: the dispatcher routes "webproxy" to the fixed category ICAP rather
than its upper-cased form WEBPROXY, routes "extender" and "carrier" through
upper-casing to EXTENDER and CARRIER, and fails the dispatch on any token
outside the recognized set. -/
theorem dispatcher_normalization (uapi : UserstoreApi) (L : List TrustedClient)
    (hu : uapi.trustedClients = Except.ok L) (token : String)
    (h1 : token ≠ "extender") (h2 : token ≠ "webproxy") (h3 : token ≠ "carrier") :
    trustedClientList uapi (trustedClientListOptions "webproxy")
        = ([RemoteCall.trustedClients],
           Except.ok (trustedClientListHelper L "ICAP"))
    ∧ (trustedClientListOptions "webproxy").normalizeClientType = "WEBPROXY"
    ∧ trustedClientList uapi (trustedClientListOptions "extender")
        = ([RemoteCall.trustedClients],
           Except.ok (trustedClientListHelper L "EXTENDER"))
    ∧ (trustedClientListOptions "extender").normalizeClientType = "EXTENDER"
    ∧ trustedClientList uapi (trustedClientListOptions "carrier")
        = ([RemoteCall.trustedClients],
           Except.ok (trustedClientListHelper L "CARRIER"))
    ∧ (trustedClientListOptions "carrier").normalizeClientType = "CARRIER"
    ∧ trustedClientList uapi (trustedClientListOptions token)
        = ([RemoteCall.trustedClients],
           Except.error ("client type does not exist: " ++ token)) := by
  refine ⟨?_, rfl, ?_, rfl, ?_, rfl, ?_⟩
  · unfold trustedClientList
    rw [hu]
    rfl
  · unfold trustedClientList
    rw [hu]
    rfl
  · unfold trustedClientList
    rw [hu]
    rfl
  · have ht := trustedClientList_calls uapi (trustedClientListOptions token)
    have hr := trustedClientList_default uapi L hu (trustedClientListOptions token) h1 h2 h3
    exact Prod.ext ht hr

/-- Witness for C5, on an empty client list and the concrete unrecognized
token "firewall". -/
theorem dispatcher_normalization_witness :
    trustedClientList emptyUserstoreApi (trustedClientListOptions "webproxy")
      = ([RemoteCall.trustedClients],
         Except.ok (trustedClientListHelper [] "ICAP")) :=
  (dispatcher_normalization emptyUserstoreApi [] rfl "firewall"
    (by decide) (by decide) (by decide)).1

/-- Running the delete loop over a list whose prefix succeeds and whose next
element fails: calls stop at the failing element, only the prefix is echoed,
and the failing element's error is returned. -/
theorem roleDeleteLoop_first_failure (api : RolestoreApi) (pre : List String)
    (hpre : ∀ id ∈ pre, api.deleteRole id = Except.ok ()) (b : String) (e : Err)
    (hb : api.deleteRole b = Except.error e) (post : List String) :
    roleDeleteLoop api (pre ++ b :: post)
      = (pre.map RemoteCall.deleteRole ++ [RemoteCall.deleteRole b], pre,
         Except.error e) := by
  induction pre with
  | nil => simp [roleDeleteLoop, hb]
  | cons head tail ih =>
      have hh : api.deleteRole head = Except.ok () := hpre head (by simp)
      have ht : ∀ id ∈ tail, api.deleteRole id = Except.ok () :=
        fun id hid => hpre id (by simp [hid])
      simp [roleDeleteLoop, hh, ih ht]

/-- C6: the comma-separated role IDs are deleted left to right; when the
remote deletion of some element fails, that element's error is returned, no
later element is sent a remote call, and exactly the earlier (successfully
deleted) elements were echoed — nothing is rolled back. -/
theorem roleDelete_stops_at_first_failure (api : RolestoreApi)
    (options : roleOptions) (pre : List String) (b : String) (post : List String)
    (hsplit : goSplit options.roleID ',' = pre ++ b :: post)
    (hpre : ∀ id ∈ pre, api.deleteRole id = Except.ok ())
    (e : Err) (hb : api.deleteRole b = Except.error e) :
    roleDelete api options
      = (pre.map RemoteCall.deleteRole ++ [RemoteCall.deleteRole b], pre,
         Except.error e) := by
  unfold roleDelete
  rw [hsplit]
  exact roleDeleteLoop_first_failure api pre hpre b e hb post

/-- A rolestore API where deleting role "b" fails and every other deletion
succeeds. -/
def deleteFailsOnB : RolestoreApi :=
  { deleteRole := fun id =>
      if id = "b" then Except.error "delete failed" else Except.ok ()
  , getRoleMembers := fun _ => Except.ok [] }

/-- Witness for C6: deleting "a,b,c" where "b" fails deletes "a", echoes "a",
reports the failure of "b", and never touches "c". -/
theorem roleDelete_stops_at_first_failure_witness :
    roleDelete deleteFailsOnB { roleID := "a,b,c" }
      = ([RemoteCall.deleteRole "a", RemoteCall.deleteRole "b"], ["a"],
         Except.error "delete failed") := by
  have h := roleDelete_stops_at_first_failure deleteFailsOnB { roleID := "a,b,c" }
    ["a"] "b" ["c"] rfl ?_ "delete failed" rfl
  · exact h
  · intro id hid
    simp only [List.mem_singleton] at hid
    subst hid
    rfl

/-- Running the members loop when every lookup succeeds with `m id`: one call
per identifier in order, and the accumulator receives each member list in
order. -/
theorem roleMemberListLoop_all_ok (api : RolestoreApi) (m : String → List User)
    (ids : List String)
    (h : ∀ id ∈ ids, api.getRoleMembers id = Except.ok (m id)) :
    ∀ members, roleMemberListLoop api members ids
      = (ids.map RemoteCall.getRoleMembers,
         Except.ok (members ++ (ids.map m).flatten)) := by
  induction ids with
  | nil => intro members; simp [roleMemberListLoop]
  | cons head tail ih =>
      intro members
      have hh : api.getRoleMembers head = Except.ok (m head) := h head (by simp)
      have ht : ∀ id ∈ tail, api.getRoleMembers id = Except.ok (m id) :=
        fun id hid => h id (by simp [hid])
      simp [roleMemberListLoop, hh, ih ht]

/-- C7: when every per-role member lookup succeeds, the members command
performs one lookup per comma-separated identifier in input order and prints
the flat concatenation of each role's member list, in that order, with no
de-duplication. -/
theorem roleMemberList_concatenates (api : RolestoreApi) (options : roleOptions)
    (m : String → List User)
    (h : ∀ id ∈ goSplit options.roleID ',', api.getRoleMembers id = Except.ok (m id)) :
    roleMemberList api options
      = ((goSplit options.roleID ',').map RemoteCall.getRoleMembers,
         Except.ok (((goSplit options.roleID ',').map m).flatten)) := by
  unfold roleMemberList
  simpa using roleMemberListLoop_all_ok api m (goSplit options.roleID ',') h []

/-- A rolestore API with members for the roles "r1" and "r2"; the user "u2"
belongs to both. -/
def membersApi : RolestoreApi :=
  { deleteRole := fun _ => Except.ok ()
  , getRoleMembers := fun id =>
      if id = "r1" then Except.ok [User.mk "u1", User.mk "u2"]
      else if id = "r2" then Except.ok [User.mk "u2"]
      else Except.error "role not found" }

/-- Witness for C7: members of "r1,r2" are the concatenation of both member
lists, with "u2" listed twice. -/
theorem roleMemberList_concatenates_witness :
    roleMemberList membersApi { roleID := "r1,r2" }
      = ([RemoteCall.getRoleMembers "r1", RemoteCall.getRoleMembers "r2"],
         Except.ok [User.mk "u1", User.mk "u2", User.mk "u2"]) := by
  have h := roleMemberList_concatenates membersApi { roleID := "r1,r2" }
    (fun id => if id = "r1" then [User.mk "u1", User.mk "u2"] else [User.mk "u2"]) ?_
  · exact h.trans rfl
  · have hs : goSplit "r1,r2" ',' = ["r1", "r2"] := rfl
    show ∀ id ∈ goSplit "r1,r2" ',', _
    rw [hs]
    intro id hid
    simp only [List.mem_cons, List.mem_singleton] at hid
    rcases hid with h1 | h2 | h3
    · subst h1; rfl
    · subst h2; rfl
    · cases h3

/-- C8: each per-type pre-config download performs exactly two remote steps in
order — first the download-handle request for the client ID, then the download
with the original client ID, the handle's session ID and the file name; a
failing first step prevents the second, a failure at either step is returned,
and no step is repeated. -/
theorem preConfig_two_step (api : AuthorizerApi) (options : trustedClientOptions) :
    (∀ e, api.extenderConfigDownloadHandle options.trustedClientID = Except.error e →
        downloadExtenderPreConf api options
          = ([RemoteCall.extenderConfigDownloadHandle options.trustedClientID],
             Except.error e))
    ∧ (∀ handler e,
        api.extenderConfigDownloadHandle options.trustedClientID = Except.ok handler →
        api.downloadExtenderConfig options.trustedClientID handler.sessionID
            options.fileName = Except.error e →
        downloadExtenderPreConf api options
          = ([RemoteCall.extenderConfigDownloadHandle options.trustedClientID,
              RemoteCall.downloadExtenderConfig options.trustedClientID
                handler.sessionID options.fileName],
             Except.error e))
    ∧ (∀ handler,
        api.extenderConfigDownloadHandle options.trustedClientID = Except.ok handler →
        api.downloadExtenderConfig options.trustedClientID handler.sessionID
            options.fileName = Except.ok () →
        downloadExtenderPreConf api options
          = ([RemoteCall.extenderConfigDownloadHandle options.trustedClientID,
              RemoteCall.downloadExtenderConfig options.trustedClientID
                handler.sessionID options.fileName],
             Except.ok ()))
    ∧ (∀ e, api.webProxySessionDownloadHandle options.trustedClientID = Except.error e →
        downloadWebProxyPreConf api options
          = ([RemoteCall.webProxySessionDownloadHandle options.trustedClientID],
             Except.error e))
    ∧ (∀ handler e,
        api.webProxySessionDownloadHandle options.trustedClientID = Except.ok handler →
        api.downloadWebProxyConfig options.trustedClientID handler.sessionID
            options.fileName = Except.error e →
        downloadWebProxyPreConf api options
          = ([RemoteCall.webProxySessionDownloadHandle options.trustedClientID,
              RemoteCall.downloadWebProxyConfig options.trustedClientID
                handler.sessionID options.fileName],
             Except.error e))
    ∧ (∀ handler,
        api.webProxySessionDownloadHandle options.trustedClientID = Except.ok handler →
        api.downloadWebProxyConfig options.trustedClientID handler.sessionID
            options.fileName = Except.ok () →
        downloadWebProxyPreConf api options
          = ([RemoteCall.webProxySessionDownloadHandle options.trustedClientID,
              RemoteCall.downloadWebProxyConfig options.trustedClientID
                handler.sessionID options.fileName],
             Except.ok ()))
    ∧ (∀ e, api.carrierConfigDownloadHandle options.trustedClientID = Except.error e →
        downloadCarrierPreConf api options
          = ([RemoteCall.carrierConfigDownloadHandle options.trustedClientID],
             Except.error e))
    ∧ (∀ handler e,
        api.carrierConfigDownloadHandle options.trustedClientID = Except.ok handler →
        api.downloadCarrierConfig options.trustedClientID handler.sessionID
            options.fileName = Except.error e →
        downloadCarrierPreConf api options
          = ([RemoteCall.carrierConfigDownloadHandle options.trustedClientID,
              RemoteCall.downloadCarrierConfig options.trustedClientID
                handler.sessionID options.fileName],
             Except.error e))
    ∧ (∀ handler,
        api.carrierConfigDownloadHandle options.trustedClientID = Except.ok handler →
        api.downloadCarrierConfig options.trustedClientID handler.sessionID
            options.fileName = Except.ok () →
        downloadCarrierPreConf api options
          = ([RemoteCall.carrierConfigDownloadHandle options.trustedClientID,
              RemoteCall.downloadCarrierConfig options.trustedClientID
                handler.sessionID options.fileName],
             Except.ok ())) := by
  refine ⟨?_, ?_, ?_, ?_, ?_, ?_, ?_, ?_, ?_⟩
  · intro e h1
    unfold downloadExtenderPreConf
    rw [h1]
  · intro handler e h1 h2
    unfold downloadExtenderPreConf
    rw [h1]
    simp only []
    rw [h2]
  · intro handler h1 h2
    unfold downloadExtenderPreConf
    rw [h1]
    simp only []
    rw [h2]
  · intro e h1
    unfold downloadWebProxyPreConf
    rw [h1]
  · intro handler e h1 h2
    unfold downloadWebProxyPreConf
    rw [h1]
    simp only []
    rw [h2]
  · intro handler h1 h2
    unfold downloadWebProxyPreConf
    rw [h1]
    simp only []
    rw [h2]
  · intro e h1
    unfold downloadCarrierPreConf
    rw [h1]
  · intro handler e h1 h2
    unfold downloadCarrierPreConf
    rw [h1]
    simp only []
    rw [h2]
  · intro handler h1 h2
    unfold downloadCarrierPreConf
    rw [h1]
    simp only []
    rw [h2]

/-- An authorizer API whose every operation succeeds; download handles carry
the session ID "sess-1". -/
def okAuthorizerApi : AuthorizerApi :=
  { extenderCACertificates := fun _ => Except.ok []
  , webProxyCACertificates := fun _ => Except.ok []
  , extenderCACertificate := fun _ => Except.ok (CACertificate.mk "pem")
  , webProxyCACertificate := fun _ => Except.ok (CACertificate.mk "pem")
  , downloadExtenderCertificateCRL := fun _ _ => Except.ok ()
  , downloadWebProxyCertificateCRL := fun _ _ => Except.ok ()
  , extenderConfigDownloadHandle := fun _ => Except.ok (DownloadHandle.mk "sess-1")
  , downloadExtenderConfig := fun _ _ _ => Except.ok ()
  , webProxySessionDownloadHandle := fun _ => Except.ok (DownloadHandle.mk "sess-1")
  , downloadWebProxyConfig := fun _ _ _ => Except.ok ()
  , carrierConfigDownloadHandle := fun _ => Except.ok (DownloadHandle.mk "sess-1")
  , downloadCarrierConfig := fun _ _ _ => Except.ok () }

/-- Witness for C8: a failing handle request stops the extender download after
one call; a fully successful carrier download performs exactly the two calls
in order, passing the handle's session ID and the file name. -/
theorem preConfig_two_step_witness :
    downloadExtenderPreConf failingAuthorizerApi
        (preConfigOptions "cid" "extender" "out.conf")
      = ([RemoteCall.extenderConfigDownloadHandle "cid"],
         Except.error "remote failure")
    ∧ downloadCarrierPreConf okAuthorizerApi
        (preConfigOptions "cid" "carrier" "out.conf")
      = ([RemoteCall.carrierConfigDownloadHandle "cid",
          RemoteCall.downloadCarrierConfig "cid" "sess-1" "out.conf"],
         Except.ok ()) := by
  constructor
  · exact (preConfig_two_step failingAuthorizerApi
      (preConfigOptions "cid" "extender" "out.conf")).1 "remote failure" rfl
  · exact (preConfig_two_step okAuthorizerApi
      (preConfigOptions "cid" "carrier" "out.conf")).2.2.2.2.2.2.2.2
      (DownloadHandle.mk "sess-1") rfl rfl

end PrivxCli
